import Mathlib

/-!
# Shallow embedding of `@sabl/txn` (libsabl/txn-js, `src/index.ts`)

This file embeds the transaction-orchestration core of the library:

* `TxnRunnerImpl.run` / `TxnRunnerImpl.in` (here `TxnRunnerImpl.in_`, since
  `in` is a Lean keyword), the generic transaction runner;
* `ChangeSetImpl` (`defer`, `deferFail`, `commit`, `rollback`,
  `checkStatus`), the in-memory change set;
* `TxnChangeSetImpl` (`deferTxn` and the overridden `commit`), the change
  set with a real backend-transaction phase.

Modelling decisions:

* JavaScript thrown values are `JsVal`: `nullish` (null/undefined), an
  `Error` object (`errObj`), or any other value together with its
  `String(v)` form (`plain`).  An `Error` (`JsErr`) has a message and an
  optional `cause` chain, mirroring `new Error(msg, { cause })`.
* Contexts (`Ctx`) mirror the chained `@sabl/context` carrier for the two
  keys the runner reads: the transactable source and the current open
  transaction.  `Ctx.withTxn` is the accessor bundle's `withTxn`.
  A `base` context carries an id so that distinct context objects are
  distinct values.
* A transaction value (`TxnVal`) carries an id, the behaviour of its
  `commit()` and `rollback()` (which `JsVal`, if any, each call throws),
  and — when the transaction itself is transactable (`'beginTxn' in x`) —
  the child transaction its own `beginTxn` produces.
* Effects are traces: executing runner or change-set code yields a list of
  events `Ev` (transaction begun, callback invoked, commit/rollback of the
  backend transaction attempted, a deferred function invoked) alongside a
  result.  `await` sequencing of a single logical thread is the list order.
* User callbacks are functions from the arguments the code passes them to
  a trace of their own events plus an optional thrown value, so the claims
  can quantify over arbitrary callback behaviour.
-/

/-- A JavaScript `Error` object: `new Error(message)` or
`new Error(message, { cause })` where the cause is itself an `Error`. -/
inductive JsErr where
  | base (message : String)
  | withCause (message : String) (cause : JsErr)
deriving DecidableEq, Repr

/-- The `message` property of an `Error`. -/
def JsErr.message : JsErr → String
  | .base m => m
  | .withCause m _ => m

/-- The `cause` property of an `Error` (`undefined` when absent). -/
def JsErr.cause : JsErr → Option JsErr
  | .base _ => none
  | .withCause _ c => some c

/-- A JavaScript value as it matters to `catch` blocks: `null`/`undefined`,
an `Error` instance, or any other value carrying its `String(v)` form. -/
inductive JsVal where
  | nullish
  | errObj (e : JsErr)
  | plain (str : String)
deriving DecidableEq, Repr

/-- `String(v)` for a caught value; for an `Error` named `Error` this is
`"Error: " ++ message`. Never applied to `nullish` by the source (guarded
by `e != null`). -/
def jsString : JsVal → String
  | .nullish => "null"
  | .errObj e => "Error: " ++ e.message
  | .plain s => s

/-- A backend transaction object: its id, what its `commit()` and
`rollback()` do (throw the given value, or succeed), and — for a
transaction that is itself transactable (`'beginTxn' in x`) — the child
transaction its `beginTxn` produces. -/
inductive TxnVal where
  | leaf (id : Nat) (commitErr rollbackErr : Option JsVal)
  | nestable (id : Nat) (commitErr rollbackErr : Option JsVal) (child : TxnVal)
deriving DecidableEq, Repr

/-- The transaction's id. -/
def TxnVal.id : TxnVal → Nat
  | .leaf i _ _ => i
  | .nestable i _ _ _ => i

/-- What `txn.commit()` throws, if anything. -/
def TxnVal.commitErr : TxnVal → Option JsVal
  | .leaf _ c _ => c
  | .nestable _ c _ _ => c

/-- What `txn.rollback()` throws, if anything. -/
def TxnVal.rollbackErr : TxnVal → Option JsVal
  | .leaf _ _ r => r
  | .nestable _ _ r _ => r

/-- `isTransactable` capability probe (`'beginTxn' in x`): the child
transaction this transaction's own `beginTxn` would produce, when the
capability is present. -/
def TxnVal.beginChild : TxnVal → Option TxnVal
  | .leaf _ _ _ => none
  | .nestable _ _ _ c => some c

/-- A context carrier for the two keys the runner reads: `base` holds the
values installed at the root (the transactable source, modelled by the
transaction its `beginTxn` produces, and any already-open transaction);
`withTxn` is the accessor bundle's `withTxn`, deriving a child context
that carries an open transaction. -/
inductive Ctx where
  | base (id : Nat) (src : Option TxnVal) (txn : Option TxnVal)
  | withTxn (parent : Ctx) (txn : TxnVal)
deriving DecidableEq, Repr

/-- Accessor bundle `getTransactable`: resolve the transactable source,
walking up the context chain. -/
def Ctx.getTransactable : Ctx → Option TxnVal
  | .base _ s _ => s
  | .withTxn p _ => p.getTransactable

/-- Accessor bundle `getTxn`: resolve the innermost open transaction. -/
def Ctx.getTxn : Ctx → Option TxnVal
  | .base _ _ t => t
  | .withTxn _ t => some t

/-- Observable events of one execution, in `await` order. -/
inductive Ev where
  /-- `beginTxn` was invoked: on the existing transaction (`fromTxn = some
  id`) or on the context's transactable source (`fromTxn = none`),
  producing the transaction `txnId`. -/
  | began (fromTxn : Option Nat) (txnId : Nat)
  /-- The runner invoked the user callback with this context and this
  transaction. -/
  | cbInvoked (ctx : Ctx) (txnId : Nat)
  /-- `txn.commit()` was invoked. -/
  | txnCommit (txnId : Nat)
  /-- `txn.rollback()` was invoked. -/
  | txnRollback (txnId : Nat)
  /-- A deferred change-set callback with id `id` was invoked with context
  `ctx` (and, for `deferTxn` callbacks, the transaction `txn`). -/
  | fnCalled (id : Nat) (ctx : Ctx) (txn : Option Nat)
deriving DecidableEq, Repr

/-- A user callback for `run`/`in`: given the context and transaction the
runner passes it, it produces its own trace of events and optionally a
thrown value (`some e` = the callback raised `e`). -/
def RunCb : Type := Ctx → TxnVal → List Ev × Option JsVal

/-- `new Error('Transaction failed' + errSuffix, { cause })` as built in
the `catch` block of `TxnRunnerImpl.run`: the suffix is `': ' + String(e)`
unless the caught value was `null`/`undefined`, and the cause is the caught
value exactly when it is an `Error` instance. -/
def txnFailedErr (e : JsVal) : JsErr :=
  let msg := match e with
    | .nullish => "Transaction failed"
    | v => "Transaction failed" ++ ": " ++ jsString v
  match e with
  | .errObj c => .withCause msg c
  | _ => .base msg

/-- The `catch` block of `TxnRunnerImpl.run`: roll back the transaction
(a throw from `rollback()` propagates as-is, replacing the caught value),
then throw the wrapped `Transaction failed` error. -/
def runCatch (evs : List Ev) (txn : TxnVal) (e : JsVal) :
    List Ev × Except JsVal Unit :=
  let evs := evs ++ [Ev.txnRollback txn.id]
  match txn.rollbackErr with
  | some r => (evs, .error r)
  | none => (evs, .error (.errObj (txnFailedErr e)))

/-- `TxnRunnerImpl.run(ctx, opts?, fn?)` after JavaScript overload
resolution (`opts`/`fn` already separated; `fn = none` models a missing
callback).  Mirrors `src/index.ts` lines 206–262: resolve the
transactable (else throw), check the callback (else throw), probe any
existing transaction (non-transactable: throw; transactable: it becomes
the source), begin the transaction, derive the child context, run the
callback then `commit()`, and on any throw run the `catch` block. -/
def TxnRunnerImpl.run (ctx : Ctx) (_opts : Option Nat) (fn : Option RunCb) :
    List Ev × Except JsVal Unit :=
  match ctx.getTransactable with
  | none =>
    ([], .error (.errObj (.base "No transactable source present on context")))
  | some src =>
    match fn with
    | none => ([], .error (.errObj (.base "Missing callback function")))
    | some fn =>
      let srcTxn : Except JsVal (Option Nat × TxnVal) :=
        match ctx.getTxn with
        | some existing =>
          match existing.beginChild with
          | some child => .ok (some existing.id, child)
          | none => .error (.errObj (.base
              "There is already an open transaction, and it does not support nested transactions"))
        | none => .ok (none, src)
      match srcTxn with
      | .error e => ([], .error e)
      | .ok (fromTxn, txn) =>
        let txnContext := Ctx.withTxn ctx txn
        let cb := fn txnContext txn
        let evs := [Ev.began fromTxn txn.id, Ev.cbInvoked txnContext txn.id]
          ++ cb.1
        match cb.2 with
        | some e => runCatch evs txn e
        | none =>
          let evs := evs ++ [Ev.txnCommit txn.id]
          match txn.commitErr with
          | some e => runCatch evs txn e
          | none => (evs, .ok ())

/-- `TxnRunnerImpl.in(ctx, opts?, fn?)` (named `in_` because `in` is a
Lean keyword).  Mirrors `src/index.ts` lines 273–304: if the context
already carries an open transaction, invoke the callback directly with the
provided context and that transaction (a throw propagates unwrapped; a
missing callback is a `TypeError`); otherwise delegate to `run`, with or
without the options argument. -/
def TxnRunnerImpl.in_ (ctx : Ctx) (opts : Option Nat) (fn : Option RunCb) :
    List Ev × Except JsVal Unit :=
  match ctx.getTxn with
  | some existing =>
    match fn with
    | none => ([], .error (.errObj (.base "fn is not a function")))
    | some fn =>
      let cb := fn ctx existing
      (Ev.cbInvoked ctx existing.id :: cb.1,
        match cb.2 with
        | some e => .error e
        | none => .ok ())
  | none =>
    match opts with
    | none => TxnRunnerImpl.run ctx none fn
    | some o => TxnRunnerImpl.run ctx (some o) fn

/-- A deferred change-set callback (`defer`/`deferFail`): an id for the
trace and what one invocation of it does (`some e` = it raises `e`). -/
structure Cb where
  id : Nat
  err : Option JsVal
deriving DecidableEq, Repr

/-- A deferred transactional callback (`deferTxn`): an id for the trace
and what one invocation of it does. -/
structure TxnCb where
  id : Nat
  err : Option JsVal
deriving DecidableEq, Repr

/-- The mutable state of a `ChangeSetImpl` (`src/index.ts` lines
307–317): the ordered commit and rollback callback lists, the context
captured at construction, and the `done` / `ignoreStatus` flags. -/
structure ChangeSetImpl where
  ctx : Ctx
  commitFns : List Cb
  rollbackFns : List Cb
  done : Bool
  ignoreStatus : Bool
deriving DecidableEq, Repr

/-- `new ChangeSetImpl(ctx)`. -/
def ChangeSetImpl.new (ctx : Ctx) : ChangeSetImpl :=
  ⟨ctx, [], [], false, false⟩

/-- `csBuilder.beginTxn(ctx)` (`src/index.ts` lines 59–63): resolves to a
fresh change set capturing `ctx`. -/
def csBuilderBeginTxn (ctx : Ctx) : ChangeSetImpl :=
  ChangeSetImpl.new ctx

/-- The error thrown by `checkStatus` on a completed set. -/
def alreadyCompletedErr : JsVal :=
  .errObj (.base "Change set is already committed or rolled back")

/-- `ChangeSetImpl.checkStatus`: throw when the set is done. -/
def ChangeSetImpl.checkStatus (s : ChangeSetImpl) : Option JsVal :=
  if s.done then some alreadyCompletedErr else none

/-- `ChangeSetImpl.defer(fn)`: check status, then push onto `commitFns`.
Returns the new state and the thrown value, if any. -/
def ChangeSetImpl.defer (s : ChangeSetImpl) (fn : Cb) :
    ChangeSetImpl × Option JsVal :=
  match s.checkStatus with
  | some e => (s, some e)
  | none => ({ s with commitFns := s.commitFns ++ [fn] }, none)

/-- `ChangeSetImpl.deferFail(fn)`: check status, then push onto
`rollbackFns`. -/
def ChangeSetImpl.deferFail (s : ChangeSetImpl) (fn : Cb) :
    ChangeSetImpl × Option JsVal :=
  match s.checkStatus with
  | some e => (s, some e)
  | none => ({ s with rollbackFns := s.rollbackFns ++ [fn] }, none)

/-- `for (const fn of fns) { await fn(ctx); }`: invoke each callback in
order with the captured context; a raise aborts the loop and propagates.
Produces the trace of invocations (the raising callback included) and the
propagated value, if any. -/
def runFns (ctx : Ctx) : List Cb → List Ev × Option JsVal
  | [] => ([], none)
  | fn :: rest =>
    match fn.err with
    | some e => ([Ev.fnCalled fn.id ctx none], some e)
    | none =>
      let rest' := runFns ctx rest
      (Ev.fnCalled fn.id ctx none :: rest'.1, rest'.2)

/-- `ChangeSetImpl.commit()` (`src/index.ts` lines 335–348): check status
(throw if done), set `done`, run the commit callbacks in order aborting at
the first raise, and in the `finally` set `ignoreStatus` to whether the
loop failed. -/
def ChangeSetImpl.commit (s : ChangeSetImpl) :
    ChangeSetImpl × List Ev × Option JsVal :=
  match s.checkStatus with
  | some e => (s, [], some e)
  | none =>
    let s := { s with done := true }
    let run := runFns s.ctx s.commitFns
    let ok := run.2.isNone
    ({ s with ignoreStatus := !ok }, run.1, run.2)

/-- `ChangeSetImpl.rollback()` (`src/index.ts` lines 350–362): when
`ignoreStatus` is set (the previous `commit()` failed), clear it instead
of checking status; otherwise check status (throw if done).  Then set
`done` and run the rollback callbacks in order — the loop has no
`try`/`catch`, so a raising callback aborts it and propagates. -/
def ChangeSetImpl.rollback (s : ChangeSetImpl) :
    ChangeSetImpl × List Ev × Option JsVal :=
  if s.ignoreStatus then
    let s := { s with ignoreStatus := false, done := true }
    let run := runFns s.ctx s.rollbackFns
    (s, run.1, run.2)
  else
    match s.checkStatus with
    | some e => (s, [], some e)
    | none =>
      let s := { s with done := true }
      let run := runFns s.ctx s.rollbackFns
      (s, run.1, run.2)

/-- The state of a `TxnChangeSetImpl` (`src/index.ts` lines 365–379): the
inherited `ChangeSetImpl` fields plus the ordered `deferTxn` callback
list.  (The internally held runner is the one built over the base
accessor; its environment is read from `ctx` at commit time.) -/
structure TxnChangeSetImpl where
  ctx : Ctx
  commitFns : List Cb
  rollbackFns : List Cb
  commitTxn : List TxnCb
  done : Bool
  ignoreStatus : Bool
deriving DecidableEq, Repr

/-- The inherited `ChangeSetImpl` portion of a `TxnChangeSetImpl`. -/
def TxnChangeSetImpl.base (s : TxnChangeSetImpl) : ChangeSetImpl :=
  ⟨s.ctx, s.commitFns, s.rollbackFns, s.done, s.ignoreStatus⟩

/-- Write the inherited portion back. -/
def TxnChangeSetImpl.withBase (s : TxnChangeSetImpl) (b : ChangeSetImpl) :
    TxnChangeSetImpl :=
  ⟨b.ctx, b.commitFns, b.rollbackFns, s.commitTxn, b.done, b.ignoreStatus⟩

/-- `new TxnChangeSetImpl(ctx, runner)` via the wrapped accessor's
`beginTxn` (`src/index.ts` lines 86–91). -/
def TxnChangeSetImpl.new (ctx : Ctx) : TxnChangeSetImpl :=
  ⟨ctx, [], [], [], false, false⟩

/-- `TxnChangeSetImpl.defer` — inherited from `ChangeSetImpl`. -/
def TxnChangeSetImpl.defer (s : TxnChangeSetImpl) (fn : Cb) :
    TxnChangeSetImpl × Option JsVal :=
  let b := s.base.defer fn
  (s.withBase b.1, b.2)

/-- `TxnChangeSetImpl.deferFail` — inherited from `ChangeSetImpl`. -/
def TxnChangeSetImpl.deferFail (s : TxnChangeSetImpl) (fn : Cb) :
    TxnChangeSetImpl × Option JsVal :=
  let b := s.base.deferFail fn
  (s.withBase b.1, b.2)

/-- `TxnChangeSetImpl.rollback` — inherited from `ChangeSetImpl`; the
rollback callbacks are the inherited `rollbackFns`. -/
def TxnChangeSetImpl.rollback (s : TxnChangeSetImpl) :
    TxnChangeSetImpl × List Ev × Option JsVal :=
  let b := s.base.rollback
  (s.withBase b.1, b.2.1, b.2.2)

/-- `TxnChangeSetImpl.deferTxn(fn)` (`src/index.ts` lines 377–379): push
onto `commitTxn`.  The source performs no `checkStatus` call here, and the
method cannot throw. -/
def TxnChangeSetImpl.deferTxn (s : TxnChangeSetImpl) (fn : TxnCb) :
    TxnChangeSetImpl :=
  { s with commitTxn := s.commitTxn ++ [fn] }

/-- The body of the callback `TxnChangeSetImpl.commit` hands to the inner
runner: `for (const fn of this.#commitTxn) { await fn(txCtx, txn); }`. -/
def runTxnFns (ctx : Ctx) (txnId : Nat) : List TxnCb → List Ev × Option JsVal
  | [] => ([], none)
  | fn :: rest =>
    match fn.err with
    | some e => ([Ev.fnCalled fn.id ctx (some txnId)], some e)
    | none =>
      let rest' := runTxnFns ctx txnId rest
      (Ev.fnCalled fn.id ctx (some txnId) :: rest'.1, rest'.2)

/-- `TxnChangeSetImpl.commit()` (`src/index.ts` lines 381–409): check
status, set `done`; when `commitTxn` is non-empty, invoke the internally
held runner's `run` on the captured context with a callback executing the
transactional callbacks in order, and in the `finally` set `ignoreStatus`
to whether that run failed — a failed run propagates here, skipping the
rest.  Then run the inherited commit callbacks exactly as in
`ChangeSetImpl.commit`, with its own `finally`. -/
def TxnChangeSetImpl.commit (s : TxnChangeSetImpl) :
    TxnChangeSetImpl × List Ev × Option JsVal :=
  match s.base.checkStatus with
  | some e => (s, [], some e)
  | none =>
    let s := { s with done := true }
    let phase1 : TxnChangeSetImpl × List Ev × Option JsVal :=
      if s.commitTxn.length > 0 then
        let run := TxnRunnerImpl.run s.ctx none
          (some fun txCtx txn => runTxnFns txCtx txn.id s.commitTxn)
        match run.2 with
        | .ok _ => ({ s with ignoreStatus := false }, run.1, none)
        | .error e => ({ s with ignoreStatus := true }, run.1, some e)
      else (s, [], none)
    match phase1.2.2 with
    | some e => (phase1.1, phase1.2.1, some e)
    | none =>
      let run2 := runFns phase1.1.ctx phase1.1.commitFns
      ({ phase1.1 with ignoreStatus := run2.2.isSome },
        phase1.2.1 ++ run2.1, run2.2)

/-! ## Helper lemmas -/

/-- Every event emitted by the deferred-callback loop is an invocation of
a registered callback with the given context (and no transaction). -/
lemma runFns_events (fns : List Cb) (ctx : Ctx) :
    ∀ ev ∈ (runFns ctx fns).1, ∃ i, ev = Ev.fnCalled i ctx none := by
  induction fns with
  | nil => intro ev h; simp [runFns] at h
  | cons fn rest ih =>
    intro ev h
    cases herr : fn.err with
    | some e =>
      simp [runFns, herr] at h
      exact ⟨fn.id, h⟩
    | none =>
      simp only [runFns, herr, List.mem_cons] at h
      rcases h with h | h
      · exact ⟨fn.id, h⟩
      · exact ih ev h

/-- When no registered callback raises, the loop invokes every callback in
registration order and propagates nothing. -/
lemma runFns_all_ok (fns : List Cb) (ctx : Ctx)
    (h : ∀ f ∈ fns, f.err = none) :
    runFns ctx fns = (fns.map (fun f => Ev.fnCalled f.id ctx none), none) := by
  induction fns with
  | nil => simp [runFns]
  | cons fn rest ih =>
    have hfn : fn.err = none := h fn (by simp)
    have hrest : ∀ f ∈ rest, f.err = none := fun f hf => h f (by simp [hf])
    simp [runFns, hfn, ih hrest]

/-- When the first raising callback is `bad`, the loop invokes exactly the
callbacks up to and including `bad`, in order, and propagates its raise;
the later-registered callbacks are not invoked. -/
lemma runFns_first_err (pre : List Cb) (bad : Cb) (post : List Cb)
    (ctx : Ctx) (e : JsVal) (hpre : ∀ f ∈ pre, f.err = none)
    (hbad : bad.err = some e) :
    runFns ctx (pre ++ bad :: post) =
      ((pre ++ [bad]).map (fun f => Ev.fnCalled f.id ctx none), some e) := by
  induction pre with
  | nil => simp [runFns, hbad]
  | cons fn rest ih =>
    have hfn : fn.err = none := hpre fn (by simp)
    have hrest : ∀ f ∈ rest, f.err = none := fun f hf => hpre f (by simp [hf])
    simp [runFns, hfn, ih hrest]

/-- Registering a sequence of commit callbacks on a not-yet-completed set
appends them in order and changes nothing else. -/
lemma defer_foldl (fns : List Cb) (s : ChangeSetImpl) (h : s.done = false) :
    List.foldl (fun st fn => (st.defer fn).1) s fns =
      { s with commitFns := s.commitFns ++ fns } := by
  induction fns generalizing s with
  | nil => simp
  | cons fn rest ih =>
    have hstep : (s.defer fn).1 = { s with commitFns := s.commitFns ++ [fn] } := by
      simp [ChangeSetImpl.defer, ChangeSetImpl.checkStatus, h]
    rw [List.foldl_cons, hstep, ih _ (by simp [h])]
    simp

/-- Registering a sequence of rollback callbacks on a not-yet-completed
set appends them in order and changes nothing else. -/
lemma deferFail_foldl (fns : List Cb) (s : ChangeSetImpl) (h : s.done = false) :
    List.foldl (fun st fn => (st.deferFail fn).1) s fns =
      { s with rollbackFns := s.rollbackFns ++ fns } := by
  induction fns generalizing s with
  | nil => simp
  | cons fn rest ih =>
    have hstep : (s.deferFail fn).1 =
        { s with rollbackFns := s.rollbackFns ++ [fn] } := by
      simp [ChangeSetImpl.deferFail, ChangeSetImpl.checkStatus, h]
    rw [List.foldl_cons, hstep, ih _ (by simp [h])]
    simp

/-! ## Claim theorems -/

/-- C4: on a Change Set, `commit()` marks the set complete (the resulting
state has `done = true` even when an action raises, and `done` is set
before the action loop in the source), executes the commit actions in
exact registration order, each awaited before the next, and when some
commit action raises, the actions registered after it are not executed.
Registration by `defer` invokes nothing: in this embedding `defer` emits
no events at all, so no commit action runs before `commit()` is called. -/
theorem changeSet_commit_runs_in_registration_order
    (ctx : Ctx) (fns : List Cb) (s : ChangeSetImpl)
    (hs : s = List.foldl (fun st fn => (st.defer fn).1)
      (csBuilderBeginTxn ctx) fns) :
    s.commit.1.done = true ∧
    ((∀ f ∈ fns, f.err = none) →
      s.commit.2.1 = fns.map (fun f => Ev.fnCalled f.id ctx none) ∧
      s.commit.2.2 = none) ∧
    (∀ pre bad post e, fns = pre ++ bad :: post →
      (∀ f ∈ pre, f.err = none) → bad.err = some e →
      s.commit.2.1 = (pre ++ [bad]).map (fun f => Ev.fnCalled f.id ctx none) ∧
      s.commit.2.2 = some e) := by
  have hfold := defer_foldl fns (csBuilderBeginTxn ctx) rfl
  rw [hfold] at hs
  subst hs
  refine ⟨?_, ?_, ?_⟩
  · simp [ChangeSetImpl.commit, ChangeSetImpl.checkStatus,
      csBuilderBeginTxn, ChangeSetImpl.new]
  · intro h
    rw [show (({ csBuilderBeginTxn ctx with
        commitFns := (csBuilderBeginTxn ctx).commitFns ++ fns }) :
        ChangeSetImpl).commit
      = _ from rfl]
    simp [ChangeSetImpl.commit, ChangeSetImpl.checkStatus,
      csBuilderBeginTxn, ChangeSetImpl.new, runFns_all_ok fns ctx h]
  · intro pre bad post e hsplit hpre hbad
    subst hsplit
    simp [ChangeSetImpl.commit, ChangeSetImpl.checkStatus,
      csBuilderBeginTxn, ChangeSetImpl.new,
      runFns_first_err pre bad post ctx e hpre hbad]

/-- C4 witness: a concrete three-action change set commits its actions in
registration order, and a raising action cuts off the rest. -/
theorem changeSet_commit_runs_in_registration_order_witness :
    ((List.foldl (fun st fn => (st.defer fn).1)
        (csBuilderBeginTxn (Ctx.base 0 none none))
        [Cb.mk 0 none, Cb.mk 1 none]).commit.2.1 =
      [Ev.fnCalled 0 (Ctx.base 0 none none) none,
       Ev.fnCalled 1 (Ctx.base 0 none none) none]) ∧
    ((List.foldl (fun st fn => (st.defer fn).1)
        (csBuilderBeginTxn (Ctx.base 0 none none))
        [Cb.mk 0 none, Cb.mk 1 (some (JsVal.plain "boom")),
          Cb.mk 2 none]).commit.2.1 =
      [Ev.fnCalled 0 (Ctx.base 0 none none) none,
       Ev.fnCalled 1 (Ctx.base 0 none none) none]) :=
  ⟨((changeSet_commit_runs_in_registration_order (Ctx.base 0 none none)
      [Cb.mk 0 none, Cb.mk 1 none] _ rfl).2.1 (by decide)).1,
   ((changeSet_commit_runs_in_registration_order (Ctx.base 0 none none)
      [Cb.mk 0 none, Cb.mk 1 (some (JsVal.plain "boom")), Cb.mk 2 none] _
      rfl).2.2 [Cb.mk 0 none] (Cb.mk 1 (some (JsVal.plain "boom")))
      [Cb.mk 2 none] (JsVal.plain "boom") rfl (by decide) rfl).1⟩

/-- C1: on a Change Set that has not yet completed, after `commit()` a
second `commit()` fails with *AlreadyCompletedError*; if `commit()`
succeeded, a subsequent `rollback()` also fails with
*AlreadyCompletedError*; if `commit()` itself raised, the immediately
following `rollback()` is permitted — it runs the registered failure
actions instead of failing the status check — and this window holds
exactly once: after that `rollback()`, both `rollback()` and `commit()`
fail with *AlreadyCompletedError*.  After a direct `rollback()`, both
terminal methods likewise fail with *AlreadyCompletedError*. -/
theorem changeSet_terminal_methods_exactly_once
    (s : ChangeSetImpl) (hdone : s.done = false)
    (hign : s.ignoreStatus = false) :
    s.commit.1.commit.2.2 = some alreadyCompletedErr ∧
    (s.commit.2.2 = none →
      s.commit.1.rollback.2.2 = some alreadyCompletedErr) ∧
    (∀ e, s.commit.2.2 = some e →
      s.commit.1.rollback.2.1 = (runFns s.ctx s.rollbackFns).1 ∧
      s.commit.1.rollback.2.2 = (runFns s.ctx s.rollbackFns).2 ∧
      s.commit.1.rollback.1.rollback.2.2 = some alreadyCompletedErr ∧
      s.commit.1.rollback.1.commit.2.2 = some alreadyCompletedErr) ∧
    s.rollback.1.rollback.2.2 = some alreadyCompletedErr ∧
    s.rollback.1.commit.2.2 = some alreadyCompletedErr := by
  refine ⟨?_, ?_, ?_, ?_, ?_⟩
  · simp [ChangeSetImpl.commit, ChangeSetImpl.checkStatus, hdone]
  · intro hok
    simp only [ChangeSetImpl.commit, ChangeSetImpl.checkStatus, hdone,
      Bool.false_eq_true, if_false, reduceCtorEq, ite_false] at hok ⊢
    simp [ChangeSetImpl.rollback, ChangeSetImpl.checkStatus, hok]
  · intro e herr
    simp only [ChangeSetImpl.commit, ChangeSetImpl.checkStatus, hdone,
      Bool.false_eq_true, if_false, reduceCtorEq, ite_false] at herr ⊢
    simp [ChangeSetImpl.rollback, ChangeSetImpl.checkStatus, herr]
  · simp [ChangeSetImpl.rollback, ChangeSetImpl.commit,
      ChangeSetImpl.checkStatus, hdone, hign]
  · simp [ChangeSetImpl.rollback, ChangeSetImpl.commit,
      ChangeSetImpl.checkStatus, hdone, hign]

/-- C1 witness: on a concrete change set whose single commit action
raises, the second `commit()` fails, the window `rollback()` runs the
failure action, and a third terminal call fails again; on a concrete set
whose commit succeeds, `rollback()` after `commit()` fails. -/
theorem changeSet_terminal_methods_exactly_once_witness :
    ((ChangeSetImpl.mk (Ctx.base 0 none none)
        [Cb.mk 0 (some (JsVal.plain "x"))] [Cb.mk 1 none] false
        false).commit.1.commit.2.2 = some alreadyCompletedErr) ∧
    ((ChangeSetImpl.mk (Ctx.base 0 none none)
        [Cb.mk 0 (some (JsVal.plain "x"))] [Cb.mk 1 none] false
        false).commit.1.rollback.2.1 =
      (runFns (Ctx.base 0 none none) [Cb.mk 1 none]).1) ∧
    ((ChangeSetImpl.mk (Ctx.base 0 none none)
        [Cb.mk 0 (some (JsVal.plain "x"))] [Cb.mk 1 none] false
        false).commit.1.rollback.1.rollback.2.2 =
      some alreadyCompletedErr) ∧
    ((ChangeSetImpl.mk (Ctx.base 0 none none) [Cb.mk 0 none] [] false
        false).commit.1.rollback.2.2 = some alreadyCompletedErr) :=
  ⟨(changeSet_terminal_methods_exactly_once _ rfl rfl).1,
   ((changeSet_terminal_methods_exactly_once _ rfl rfl).2.2.1
      (JsVal.plain "x") (by decide)).1,
   ((changeSet_terminal_methods_exactly_once _ rfl rfl).2.2.1
      (JsVal.plain "x") (by decide)).2.2.1,
   (changeSet_terminal_methods_exactly_once
      (ChangeSetImpl.mk (Ctx.base 0 none none) [Cb.mk 0 none] [] false
        false) rfl rfl).2.1 (by decide)⟩

/-- C2 counterexample: the failure-action loop of `rollback()`
(`src/index.ts` lines 359–361) has no per-action `try`/`catch`, so on a
concrete set with two failure actions whose first raises, the
later-registered failure action is never executed — contradicting the
claim that a raising failure action does not prevent the remaining ones
from executing. -/
theorem changeSet_rollback_abort_counterexample :
    (ChangeSetImpl.mk (Ctx.base 0 none none) []
      [Cb.mk 0 (some (JsVal.plain "boom")), Cb.mk 1 none] false
      false).rollback.2.1 =
      [Ev.fnCalled 0 (Ctx.base 0 none none) none] ∧
    Ev.fnCalled 1 (Ctx.base 0 none none) none ∉
      (ChangeSetImpl.mk (Ctx.base 0 none none) []
        [Cb.mk 0 (some (JsVal.plain "boom")), Cb.mk 1 none] false
        false).rollback.2.1 := by
  decide

/-- C2 amended: `rollback()` (when permitted) executes the failure
actions in registration order, each awaited before the next; but a
failure action that raises aborts the loop — the remaining
later-registered failure actions are not executed and the raise
propagates to the caller. -/
theorem changeSet_rollback_order_and_abort
    (s : ChangeSetImpl) (hdone : s.done = false)
    (hign : s.ignoreStatus = false) :
    ((∀ f ∈ s.rollbackFns, f.err = none) →
      s.rollback.2.1 =
        s.rollbackFns.map (fun f => Ev.fnCalled f.id s.ctx none) ∧
      s.rollback.2.2 = none) ∧
    (∀ pre bad post e, s.rollbackFns = pre ++ bad :: post →
      (∀ f ∈ pre, f.err = none) → bad.err = some e →
      s.rollback.2.1 =
        (pre ++ [bad]).map (fun f => Ev.fnCalled f.id s.ctx none) ∧
      s.rollback.2.2 = some e) := by
  constructor
  · intro h
    simp [ChangeSetImpl.rollback, ChangeSetImpl.checkStatus, hdone, hign,
      runFns_all_ok s.rollbackFns s.ctx h]
  · intro pre bad post e hsplit hpre hbad
    simp [ChangeSetImpl.rollback, ChangeSetImpl.checkStatus, hdone, hign,
      hsplit, runFns_first_err pre bad post s.ctx e hpre hbad]

/-- C2 amended witness: concrete instances of both branches. -/
theorem changeSet_rollback_order_and_abort_witness :
    ((ChangeSetImpl.mk (Ctx.base 0 none none) []
        [Cb.mk 0 none, Cb.mk 1 none] false false).rollback.2.1 =
      [Ev.fnCalled 0 (Ctx.base 0 none none) none,
       Ev.fnCalled 1 (Ctx.base 0 none none) none]) ∧
    ((ChangeSetImpl.mk (Ctx.base 0 none none) []
        [Cb.mk 2 (some (JsVal.plain "z")), Cb.mk 3 none] false
        false).rollback.2.2 = some (JsVal.plain "z")) :=
  ⟨((changeSet_rollback_order_and_abort _ rfl rfl).1 (by decide)).1,
   ((changeSet_rollback_order_and_abort
      (ChangeSetImpl.mk (Ctx.base 0 none none) []
        [Cb.mk 2 (some (JsVal.plain "z")), Cb.mk 3 none] false false)
      rfl rfl).2 [] (Cb.mk 2 (some (JsVal.plain "z"))) [Cb.mk 3 none]
      (JsVal.plain "z") rfl (by decide) rfl).2⟩

/-- C3 counterexample: `TxnChangeSetImpl.deferTxn` (`src/index.ts` lines
377–379) performs no `checkStatus` call.  On a concrete Transaction
Change Set whose `commit()` has completed (`done = true`), `deferTxn`
succeeds and appends to the transactional-actions sequence — while the
same call to `defer` fails with *AlreadyCompletedError* — contradicting
the claim that `deferTxn` then fails exactly as `defer` does. -/
theorem txnChangeSet_deferTxn_after_commit_counterexample :
    ((TxnChangeSetImpl.new (Ctx.base 0 none none)).commit.1.done = true) ∧
    ((TxnChangeSetImpl.new (Ctx.base 0 none none)).commit.1.deferTxn
        (TxnCb.mk 8 none) =
      TxnChangeSetImpl.mk (Ctx.base 0 none none) [] [] [TxnCb.mk 8 none]
        true false) ∧
    (((TxnChangeSetImpl.new (Ctx.base 0 none none)).commit.1.defer
        (Cb.mk 9 none)).2 = some alreadyCompletedErr) := by
  decide

/-- C3 amended: `deferTxn` performs no already-completed check at all —
on any Transaction Change Set, completed or not, it succeeds and appends
to the transactional-actions sequence, whereas `defer` and `deferFail`
on a completed set fail with *AlreadyCompletedError*. -/
theorem txnChangeSet_deferTxn_unguarded
    (s : TxnChangeSetImpl) (fn : TxnCb) (g : Cb) (hdone : s.done = true) :
    s.deferTxn fn = { s with commitTxn := s.commitTxn ++ [fn] } ∧
    (s.defer g).2 = some alreadyCompletedErr ∧
    (s.deferFail g).2 = some alreadyCompletedErr := by
  refine ⟨rfl, ?_, ?_⟩
  · simp [TxnChangeSetImpl.defer, ChangeSetImpl.defer,
      ChangeSetImpl.checkStatus, TxnChangeSetImpl.base, hdone]
  · simp [TxnChangeSetImpl.deferFail, ChangeSetImpl.deferFail,
      ChangeSetImpl.checkStatus, TxnChangeSetImpl.base, hdone]

/-- C3 amended witness. -/
theorem txnChangeSet_deferTxn_unguarded_witness :
    ((TxnChangeSetImpl.mk (Ctx.base 0 none none) [] [] [] true
        false).deferTxn (TxnCb.mk 4 none) =
      TxnChangeSetImpl.mk (Ctx.base 0 none none) [] [] [TxnCb.mk 4 none]
        true false) ∧
    ((TxnChangeSetImpl.mk (Ctx.base 0 none none) [] [] [] true
        false).defer (Cb.mk 5 none)).2 = some alreadyCompletedErr ∧
    ((TxnChangeSetImpl.mk (Ctx.base 0 none none) [] [] [] true
        false).deferFail (Cb.mk 5 none)).2 = some alreadyCompletedErr :=
  txnChangeSet_deferTxn_unguarded
    (TxnChangeSetImpl.mk (Ctx.base 0 none none) [] [] [] true false)
    (TxnCb.mk 4 none) (Cb.mk 5 none) rfl

/-- C10: every deferred callback of a Change Set — commit actions and
failure actions alike — is invoked with exactly the context that was
supplied when the set was created through `csBuilder.beginTxn`.  In the
source, `commit()` and `rollback()` take no context argument (their
embeddings here take only the state), so no completion-time context can
reach the callbacks: every invocation event carries the creation
context. -/
theorem changeSet_callbacks_receive_creation_ctx
    (ctx : Ctx) (dfs ffs : List Cb) (s : ChangeSetImpl)
    (hs : s = List.foldl (fun st fn => (st.deferFail fn).1)
      (List.foldl (fun st fn => (st.defer fn).1)
        (csBuilderBeginTxn ctx) dfs) ffs) :
    (∀ ev ∈ s.commit.2.1, ∃ i, ev = Ev.fnCalled i ctx none) ∧
    (∀ ev ∈ s.rollback.2.1, ∃ i, ev = Ev.fnCalled i ctx none) := by
  rw [defer_foldl dfs (csBuilderBeginTxn ctx) rfl] at hs
  rw [deferFail_foldl ffs _ rfl] at hs
  subst hs
  constructor
  · intro ev hev
    simp only [ChangeSetImpl.commit, ChangeSetImpl.checkStatus,
      csBuilderBeginTxn, ChangeSetImpl.new, Bool.false_eq_true, if_false,
      reduceCtorEq, ite_false] at hev
    exact runFns_events _ ctx ev hev
  · intro ev hev
    simp only [ChangeSetImpl.rollback, ChangeSetImpl.checkStatus,
      csBuilderBeginTxn, ChangeSetImpl.new, Bool.false_eq_true, if_false,
      reduceCtorEq, ite_false] at hev
    exact runFns_events _ ctx ev hev

/-- C10 witness: on a concrete set with one commit action and one failure
action, both invocation events carry the creation context. -/
theorem changeSet_callbacks_receive_creation_ctx_witness :
    (∀ ev ∈ (List.foldl (fun st fn => (st.deferFail fn).1)
        (List.foldl (fun st fn => (st.defer fn).1)
          (csBuilderBeginTxn (Ctx.base 3 none none)) [Cb.mk 0 none])
        [Cb.mk 1 none]).commit.2.1,
      ∃ i, ev = Ev.fnCalled i (Ctx.base 3 none none) none) ∧
    (∀ ev ∈ (List.foldl (fun st fn => (st.deferFail fn).1)
        (List.foldl (fun st fn => (st.defer fn).1)
          (csBuilderBeginTxn (Ctx.base 3 none none)) [Cb.mk 0 none])
        [Cb.mk 1 none]).rollback.2.1,
      ∃ i, ev = Ev.fnCalled i (Ctx.base 3 none none) none) :=
  changeSet_callbacks_receive_creation_ctx (Ctx.base 3 none none)
    [Cb.mk 0 none] [Cb.mk 1 none] _ rfl

/-- C5: when the callback raises, or when the transaction's `commit()`
raises, `run` rolls the transaction back (a `txnRollback` event occurs)
and then fails with the wrapped `Transaction failed` error; and the
wrapping is exactly: an `Error` cause is preserved as the `cause` with
its string form appended to the message, a non-null non-`Error` cause is
stringified into the message with no `cause`, and a `null`/`undefined`
cause yields the bare message with no `cause`. -/
theorem runner_run_wraps_failure_cause
    (ctx : Ctx) (opts : Option Nat) (f : RunCb) (src : TxnVal)
    (hsrc : ctx.getTransactable = some src) (hex : ctx.getTxn = none)
    (hrb : src.rollbackErr = none) :
    (∀ tr e, f (Ctx.withTxn ctx src) src = (tr, some e) →
      Ev.txnRollback src.id ∈ (TxnRunnerImpl.run ctx opts (some f)).1 ∧
      (TxnRunnerImpl.run ctx opts (some f)).2 =
        .error (.errObj (txnFailedErr e))) ∧
    (∀ tr e, f (Ctx.withTxn ctx src) src = (tr, none) →
      src.commitErr = some e →
      Ev.txnRollback src.id ∈ (TxnRunnerImpl.run ctx opts (some f)).1 ∧
      (TxnRunnerImpl.run ctx opts (some f)).2 =
        .error (.errObj (txnFailedErr e))) ∧
    (∀ c, txnFailedErr (JsVal.errObj c) =
      JsErr.withCause ("Transaction failed" ++ ": " ++
        jsString (JsVal.errObj c)) c) ∧
    (∀ str, txnFailedErr (JsVal.plain str) =
      JsErr.base ("Transaction failed" ++ ": " ++ str)) ∧
    txnFailedErr JsVal.nullish = JsErr.base "Transaction failed" := by
  refine ⟨?_, ?_, fun c => rfl, fun str => rfl, rfl⟩
  · intro tr e hf
    simp [TxnRunnerImpl.run, hsrc, hex, hf, runCatch, hrb]
  · intro tr e hf hc
    simp [TxnRunnerImpl.run, hsrc, hex, hf, hc, runCatch, hrb]

/-- C5 witness: a concrete run whose callback raises an `Error` produces
the wrapped failure with the original error as cause, after rolling the
transaction back. -/
theorem runner_run_wraps_failure_cause_witness :
    Ev.txnRollback 7 ∈
      (TxnRunnerImpl.run (Ctx.base 0 (some (TxnVal.leaf 7 none none)) none)
        none (some fun _ _ => ([], some (JsVal.errObj (JsErr.base "bad"))))).1 ∧
    (TxnRunnerImpl.run (Ctx.base 0 (some (TxnVal.leaf 7 none none)) none)
        none (some fun _ _ => ([], some (JsVal.errObj (JsErr.base "bad"))))).2 =
      .error (.errObj (txnFailedErr (JsVal.errObj (JsErr.base "bad")))) :=
  (runner_run_wraps_failure_cause
      (Ctx.base 0 (some (TxnVal.leaf 7 none none)) none) none
      (fun _ _ => ([], some (JsVal.errObj (JsErr.base "bad"))))
      (TxnVal.leaf 7 none none) rfl rfl rfl).1 []
    (JsVal.errObj (JsErr.base "bad")) rfl

/-- C9: when the callback (or the transaction's `commit()`) raises and
the transaction's `rollback()` is awaited but itself raises, the
rollback's own error propagates from `run` in place of the wrapped
`Transaction failed` error, and the original failure is not reported: the
result is exactly the rollback error.  The trace equations show the
rollback is awaited before any error is produced. -/
theorem runner_run_rollback_error_replaces_cause
    (ctx : Ctx) (opts : Option Nat) (f : RunCb) (src : TxnVal) (r : JsVal)
    (hsrc : ctx.getTransactable = some src) (hex : ctx.getTxn = none)
    (hrb : src.rollbackErr = some r) :
    (∀ tr e, f (Ctx.withTxn ctx src) src = (tr, some e) →
      (TxnRunnerImpl.run ctx opts (some f)).1 =
        [Ev.began none src.id,
         Ev.cbInvoked (Ctx.withTxn ctx src) src.id] ++ tr ++
          [Ev.txnRollback src.id] ∧
      (TxnRunnerImpl.run ctx opts (some f)).2 = .error r) ∧
    (∀ tr e, f (Ctx.withTxn ctx src) src = (tr, none) →
      src.commitErr = some e →
      (TxnRunnerImpl.run ctx opts (some f)).1 =
        [Ev.began none src.id,
         Ev.cbInvoked (Ctx.withTxn ctx src) src.id] ++ tr ++
          [Ev.txnCommit src.id, Ev.txnRollback src.id] ∧
      (TxnRunnerImpl.run ctx opts (some f)).2 = .error r) := by
  constructor
  · intro tr e hf
    simp [TxnRunnerImpl.run, hsrc, hex, hf, runCatch, hrb]
  · intro tr e hf hc
    simp [TxnRunnerImpl.run, hsrc, hex, hf, hc, runCatch, hrb]

/-- C9 witness: a concrete run whose callback raises and whose
transaction's rollback raises resolves with the rollback's own error. -/
theorem runner_run_rollback_error_replaces_cause_witness :
    (TxnRunnerImpl.run
        (Ctx.base 0 (some (TxnVal.leaf 7 none
          (some (JsVal.plain "rollback boom")))) none)
        none (some fun _ _ => ([], some (JsVal.plain "cb boom")))).2 =
      .error (JsVal.plain "rollback boom") :=
  ((runner_run_rollback_error_replaces_cause
      (Ctx.base 0 (some (TxnVal.leaf 7 none
        (some (JsVal.plain "rollback boom")))) none) none
      (fun _ _ => ([], some (JsVal.plain "cb boom")))
      (TxnVal.leaf 7 none (some (JsVal.plain "rollback boom")))
      (JsVal.plain "rollback boom") rfl rfl rfl).1 []
    (JsVal.plain "cb boom") rfl).2

/-- C6: `run` fails with the configuration error when no transactable
source resolves from the context; with a source present it fails with the
missing-callback error when no callback is supplied; when the context
already carries a transaction without the `beginTxn` capability it fails
with the nested-transaction error and opens no transaction (no `began`
event); and when the existing transaction has the capability, that
transaction serves as the transaction source — the new transaction is
begun on it. -/
theorem runner_run_source_and_nesting (ctx : Ctx) (opts : Option Nat) :
    (∀ fn, ctx.getTransactable = none →
      TxnRunnerImpl.run ctx opts fn =
        ([], .error (.errObj
          (.base "No transactable source present on context")))) ∧
    (∀ src, ctx.getTransactable = some src →
      TxnRunnerImpl.run ctx opts none =
        ([], .error (.errObj (.base "Missing callback function")))) ∧
    (∀ src ex f, ctx.getTransactable = some src → ctx.getTxn = some ex →
      ex.beginChild = none →
      TxnRunnerImpl.run ctx opts (some f) =
        ([], .error (.errObj (.base
          "There is already an open transaction, and it does not support nested transactions"))) ∧
      ∀ a b, Ev.began a b ∉ (TxnRunnerImpl.run ctx opts (some f)).1) ∧
    (∀ src ex child f, ctx.getTransactable = some src →
      ctx.getTxn = some ex → ex.beginChild = some child →
      ∃ tl, (TxnRunnerImpl.run ctx opts (some f)).1 =
        Ev.began (some ex.id) child.id ::
          Ev.cbInvoked (Ctx.withTxn ctx child) child.id :: tl) := by
  refine ⟨?_, ?_, ?_, ?_⟩
  · intro fn h
    simp [TxnRunnerImpl.run, h]
  · intro src h
    simp [TxnRunnerImpl.run, h]
  · intro src ex f hsrc hex hleaf
    have h : TxnRunnerImpl.run ctx opts (some f) =
        ([], .error (.errObj (.base
          "There is already an open transaction, and it does not support nested transactions"))) := by
      simp [TxnRunnerImpl.run, hsrc, hex, hleaf]
    exact ⟨h, by simp [h]⟩
  · intro src ex child f hsrc hex hchild
    simp only [TxnRunnerImpl.run, hsrc, hex, hchild]
    cases hf : (f (Ctx.withTxn ctx child) child).2 with
    | some e =>
      exact ⟨(f (Ctx.withTxn ctx child) child).1 ++
        [Ev.txnRollback child.id] ++
        (match child.rollbackErr with
          | some _ => []
          | none => []), by simp [hf, runCatch]; cases child.rollbackErr <;> simp⟩
    | none =>
      cases hc : child.commitErr with
      | some e =>
        exact ⟨(f (Ctx.withTxn ctx child) child).1 ++
          [Ev.txnCommit child.id, Ev.txnRollback child.id],
          by simp [hf, hc, runCatch]; cases child.rollbackErr <;> simp⟩
      | none =>
        exact ⟨(f (Ctx.withTxn ctx child) child).1 ++
          [Ev.txnCommit child.id], by simp [hf, hc]⟩

/-- C6 witness: concrete contexts exercising all four branches. -/
theorem runner_run_source_and_nesting_witness :
    (TxnRunnerImpl.run (Ctx.base 0 none none) none none =
      ([], .error (.errObj
        (.base "No transactable source present on context")))) ∧
    (TxnRunnerImpl.run
        (Ctx.base 0 (some (TxnVal.leaf 7 none none)) none) none none =
      ([], .error (.errObj (.base "Missing callback function")))) ∧
    (TxnRunnerImpl.run
        (Ctx.base 0 (some (TxnVal.leaf 7 none none))
          (some (TxnVal.leaf 9 none none))) none
        (some fun _ _ => ([], none)) =
      ([], .error (.errObj (.base
        "There is already an open transaction, and it does not support nested transactions")))) ∧
    (∃ tl, (TxnRunnerImpl.run
        (Ctx.base 0 (some (TxnVal.leaf 7 none none))
          (some (TxnVal.nestable 9 none none (TxnVal.leaf 3 none none))))
        none (some fun _ _ => ([], none))).1 =
      Ev.began (some 9) 3 ::
        Ev.cbInvoked
          (Ctx.withTxn
            (Ctx.base 0 (some (TxnVal.leaf 7 none none))
              (some (TxnVal.nestable 9 none none (TxnVal.leaf 3 none none))))
            (TxnVal.leaf 3 none none)) 3 :: tl) :=
  ⟨(runner_run_source_and_nesting (Ctx.base 0 none none) none).1 none rfl,
   (runner_run_source_and_nesting
      (Ctx.base 0 (some (TxnVal.leaf 7 none none)) none) none).2.1
      (TxnVal.leaf 7 none none) rfl,
   ((runner_run_source_and_nesting
      (Ctx.base 0 (some (TxnVal.leaf 7 none none))
        (some (TxnVal.leaf 9 none none))) none).2.2.1
      (TxnVal.leaf 7 none none) (TxnVal.leaf 9 none none)
      (fun _ _ => ([], none)) rfl rfl rfl).1,
   (runner_run_source_and_nesting
      (Ctx.base 0 (some (TxnVal.leaf 7 none none))
        (some (TxnVal.nestable 9 none none (TxnVal.leaf 3 none none))))
      none).2.2.2 (TxnVal.leaf 7 none none)
      (TxnVal.nestable 9 none none (TxnVal.leaf 3 none none))
      (TxnVal.leaf 3 none none) (fun _ _ => ([], none)) rfl rfl rfl⟩

/-- C7: `in` on a context that already carries an open transaction
invokes the callback directly with the identical context value and the
identical transaction instance; the call itself contributes only the
callback-invocation event — it opens no transaction and performs no
commit or rollback of its own.  On a context with no existing
transaction, `in` is the same function application as `run`, with or
without options. -/
theorem runner_in_joins_existing (ctx : Ctx) (opts : Option Nat) :
    (∀ f ex, ctx.getTxn = some ex →
      TxnRunnerImpl.in_ ctx opts (some f) =
        (Ev.cbInvoked ctx ex.id :: (f ctx ex).1,
          match (f ctx ex).2 with
          | some e => .error e
          | none => .ok ())) ∧
    (∀ fn, ctx.getTxn = none →
      TxnRunnerImpl.in_ ctx opts fn = TxnRunnerImpl.run ctx opts fn) := by
  constructor
  · intro f ex hex
    simp [TxnRunnerImpl.in_, hex]
  · intro fn hnone
    cases opts with
    | none => simp [TxnRunnerImpl.in_, hnone]
    | some o => simp [TxnRunnerImpl.in_, hnone]

/-- C7 witness: with an existing transaction the callback receives the
very same context and transaction; with none, `in` equals `run`. -/
theorem runner_in_joins_existing_witness :
    (TxnRunnerImpl.in_ (Ctx.base 0 none (some (TxnVal.leaf 9 none none)))
        none
        (some fun c t => ([Ev.fnCalled 99 c (some t.id)], none)) =
      (Ev.cbInvoked (Ctx.base 0 none (some (TxnVal.leaf 9 none none))) 9 ::
        [Ev.fnCalled 99
          (Ctx.base 0 none (some (TxnVal.leaf 9 none none))) (some 9)],
       .ok ())) ∧
    (TxnRunnerImpl.in_ (Ctx.base 0 (some (TxnVal.leaf 7 none none)) none)
        none (some fun _ _ => ([], none)) =
      TxnRunnerImpl.run (Ctx.base 0 (some (TxnVal.leaf 7 none none)) none)
        none (some fun _ _ => ([], none))) :=
  ⟨(runner_in_joins_existing
      (Ctx.base 0 none (some (TxnVal.leaf 9 none none))) none).1
      (fun c t => ([Ev.fnCalled 99 c (some t.id)], none))
      (TxnVal.leaf 9 none none) rfl,
   (runner_in_joins_existing
      (Ctx.base 0 (some (TxnVal.leaf 7 none none)) none) none).2
      (some fun _ _ => ([], none)) rfl⟩

/-- C8: committing a Transaction Change Set with an empty
transactional-actions sequence skips the transactional phase entirely:
the commit trace is exactly the run of the inherited non-transactional
commit actions, every event in it is a plain deferred-callback invocation
(so the internally held Transaction Runner is never entered and no
`began` event — no `beginTxn` on any source — ever occurs). -/
theorem txnChangeSet_empty_txn_skips_backend
    (s : TxnChangeSetImpl) (hdone : s.done = false)
    (hempty : s.commitTxn = []) :
    s.commit.2.1 = (runFns s.ctx s.commitFns).1 ∧
    (∀ ev ∈ s.commit.2.1, ∃ i c, ev = Ev.fnCalled i c none) ∧
    (∀ a b, Ev.began a b ∉ s.commit.2.1) := by
  have htr : s.commit.2.1 = (runFns s.ctx s.commitFns).1 := by
    simp [TxnChangeSetImpl.commit, TxnChangeSetImpl.base,
      ChangeSetImpl.checkStatus, hdone, hempty]
  refine ⟨htr, ?_, ?_⟩
  · intro ev hev
    rw [htr] at hev
    obtain ⟨i, hi⟩ := runFns_events s.commitFns s.ctx ev hev
    exact ⟨i, s.ctx, hi⟩
  · intro a b hmem
    rw [htr] at hmem
    obtain ⟨i, hi⟩ := runFns_events s.commitFns s.ctx _ hmem
    simp at hi

/-- C8 witness: a concrete Transaction Change Set with one plain commit
action and no transactional actions commits without any `began` event. -/
theorem txnChangeSet_empty_txn_skips_backend_witness :
    (TxnChangeSetImpl.mk (Ctx.base 0 (some (TxnVal.leaf 7 none none)) none)
        [Cb.mk 0 none] [] [] false false).commit.2.1 =
      (runFns (Ctx.base 0 (some (TxnVal.leaf 7 none none)) none)
        [Cb.mk 0 none]).1 ∧
    (∀ a b, Ev.began a b ∉
      (TxnChangeSetImpl.mk
        (Ctx.base 0 (some (TxnVal.leaf 7 none none)) none)
        [Cb.mk 0 none] [] [] false false).commit.2.1) :=
  ⟨(txnChangeSet_empty_txn_skips_backend
      (TxnChangeSetImpl.mk (Ctx.base 0 (some (TxnVal.leaf 7 none none)) none)
        [Cb.mk 0 none] [] [] false false) rfl rfl).1,
   (txnChangeSet_empty_txn_skips_backend
      (TxnChangeSetImpl.mk (Ctx.base 0 (some (TxnVal.leaf 7 none none)) none)
        [Cb.mk 0 none] [] [] false false) rfl rfl).2.2⟩
